import Mathlib

/-!
Verification of the core game logic of the auto-jump-blast endless runner
(source: src/src/components/Game.tsx).  The per-frame `update` function, the
`jump` handler, the collision predicate and the particle system are embedded
as pure Lean functions over exact rational arithmetic.  Host-environment
inputs (the clock `Date.now()`, each `Math.random()` call site, `Math.cos`,
`Math.sin`, `Math.PI`, and the canvas width) are supplied through an `Env`
record of oracles, one per call site, so every definition stays executable
and deterministic in its inputs.
-/

namespace AutoJumpBlast

/-! Constants from Game.tsx lines 31-41. -/

def GROUND_Y : ℚ := 120
def PLAYER_WIDTH : ℚ := 40
def PLAYER_HEIGHT : ℚ := 50
def PLAYER_X : ℚ := 80
def JUMP_FORCE : ℚ := 15
def GRAVITY : ℚ := 0.8
def BASE_SPEED : ℚ := 5
def SPEED_INCREMENT : ℚ := 0.7
def SPAWN_INTERVAL_BASE : ℚ := 1800
def SPAWN_INTERVAL_MIN : ℚ := 800
def POWERUP_SIZE : ℚ := 25

/-- Obstacle record (Game.tsx lines 5-11). -/
structure Obstacle where
  id : ℤ
  x : ℚ
  width : ℚ
  height : ℚ
  y : ℚ
deriving DecidableEq, Repr

/-- Particle record (Game.tsx lines 13-22). -/
structure Particle where
  x : ℚ
  y : ℚ
  vx : ℚ
  vy : ℚ
  life : ℚ
  maxLife : ℚ
  size : ℚ
  color : String
deriving DecidableEq, Repr

/-- PowerUp record (Game.tsx lines 24-29). -/
structure PowerUp where
  id : ℤ
  x : ℚ
  y : ℚ
  size : ℚ
deriving DecidableEq, Repr

/-- The mutable per-run state held in `gameRef.current` (Game.tsx lines 71-90). -/
structure GameRef where
  playerY : ℚ
  velocityY : ℚ
  isJumping : Bool
  hasDoubleJump : Bool
  usedDoubleJump : Bool
  obstacles : List Obstacle
  particles : List Particle
  powerUps : List PowerUp
  speed : ℚ
  lastSpawn : ℤ
  lastPowerUpSpawn : ℤ
  spawnInterval : ℚ
  obstacleId : ℤ
  powerUpId : ℤ
  lastMilestone : ℤ
  lastSpeedLevel : ℤ
  frameCount : ℤ
  startTime : ℚ
deriving DecidableEq, Repr

/-- The React `gameState` value. -/
inductive GState where
  | idle
  | playing
  | dead
deriving DecidableEq, Repr

/-- Host-environment oracles for one frame.  `now` models `Date.now()`;
each `...Rand` field models the `Math.random()` draw at one specific call
site of Game.tsx (indexed by loop iteration where the site is in a loop);
`cosf`, `sinf` and `pi` model `Math.cos`, `Math.sin` and `Math.PI`;
`canvasWidth` models `canvas.width`. -/
structure Env where
  now : ℚ
  canvasWidth : ℚ
  pi : ℚ
  cosf : ℚ → ℚ
  sinf : ℚ → ℚ
  obstacleTypeRand : ℚ
  flyingYRand : ℚ
  powerUpRand : ℚ
  powerUpYRand : ℚ
  deathAngleRand : ℕ → ℚ
  deathSpeedRand : ℕ → ℚ
  deathSecondaryRand : ℕ → ℚ
  deathSizeRand : ℕ → ℚ
  dustXRand : ℕ → ℚ
  dustVxRand : ℕ → ℚ
  dustVyRand : ℕ → ℚ
  dustSizeRand : ℕ → ℚ
  djXRand : ℕ → ℚ
  djVxRand : ℕ → ℚ
  djVyRand : ℕ → ℚ
  djSizeRand : ℕ → ℚ

/-- The fresh run state built by `resetGame` (Game.tsx lines 131-153),
parameterised by the `Date.now()` value recorded as `startTime`. -/
def resetGame (now : ℚ) : GameRef :=
  { playerY := GROUND_Y
    velocityY := 0
    isJumping := false
    hasDoubleJump := false
    usedDoubleJump := false
    obstacles := []
    particles := []
    powerUps := []
    speed := BASE_SPEED
    lastSpawn := 0
    lastPowerUpSpawn := 0
    spawnInterval := SPAWN_INTERVAL_BASE
    obstacleId := 0
    powerUpId := 0
    lastMilestone := 0
    lastSpeedLevel := 0
    frameCount := 0
    startTime := now }

/-- The 8 jump-dust particles pushed by `spawnJumpParticles`
(Game.tsx lines 92-106). -/
def jumpDustParticles (env : Env) : List Particle :=
  (List.range 8).map fun i =>
    { x := PLAYER_X + PLAYER_WIDTH / 2 + (env.dustXRand i - 0.5) * 20
      y := GROUND_Y + 5
      vx := (env.dustVxRand i - 0.5) * 4
      vy := env.dustVyRand i * 3 + 1
      life := 1
      maxLife := 1
      size := env.dustSizeRand i * 4 + 2
      color := "hsl(180, 100%, 60%)" }

/-- The 6 particles pushed by the double-jump branch of `jump`
(Game.tsx lines 185-196), emitted at the current player position. -/
def doubleJumpParticles (env : Env) (playerY : ℚ) : List Particle :=
  (List.range 6).map fun i =>
    { x := PLAYER_X + PLAYER_WIDTH / 2 + (env.djXRand i - 0.5) * 15
      y := playerY + PLAYER_HEIGHT / 2
      vx := (env.djVxRand i - 0.5) * 3
      vy := (env.djVyRand i - 0.5) * 3
      life := 1
      maxLife := 1
      size := env.djSizeRand i * 3 + 2
      color := "hsl(60, 100%, 60%)" }

/-- The 30-particle death burst pushed by `spawnDeathParticles`
(Game.tsx lines 108-129). -/
def deathParticles (env : Env) (playerY : ℚ) : List Particle :=
  let centerX := PLAYER_X + PLAYER_WIDTH / 2
  let centerY := playerY + PLAYER_HEIGHT / 2
  (List.range 30).map fun (i : ℕ) =>
    let angle := (env.pi * 2 * (i : ℚ)) / 30 + env.deathAngleRand i * 0.5
    let speed := env.deathSpeedRand i * 8 + 4
    let isSecondary := env.deathSecondaryRand i > 0.5
    { x := centerX
      y := centerY
      vx := env.cosf angle * speed
      vy := env.sinf angle * speed
      life := 1
      maxLife := 1
      size := env.deathSizeRand i * 6 + 3
      color := if isSecondary then "hsl(320, 100%, 60%)" else "hsl(180, 100%, 60%)" }

/-- The `jump` callback (Game.tsx lines 155-198).  From `idle` or `dead` it
resets the run and starts playing; while `playing` it performs the ground
jump, the double jump when a charge is available and unconsumed, and
otherwise nothing. -/
def jump (env : Env) (gs : GState) (g : GameRef) : GState × GameRef :=
  match gs with
  | .idle => (.playing, resetGame env.now)
  | .dead => (.playing, resetGame env.now)
  | .playing =>
    if !g.isJumping then
      (.playing,
        { g with
            velocityY := JUMP_FORCE
            isJumping := true
            usedDoubleJump := false
            particles := g.particles ++ jumpDustParticles env })
    else if g.hasDoubleJump && !g.usedDoubleJump then
      (.playing,
        { g with
            velocityY := JUMP_FORCE * 0.85
            usedDoubleJump := true
            hasDoubleJump := false
            particles := g.particles ++ doubleJumpParticles env g.playerY })
    else
      (.playing, g)

/-- The player-physics block at the top of `update` (Game.tsx lines 289-298):
gravity is subtracted from the velocity first, the position advances by the
updated velocity, and a position at or below the ground is clamped with the
velocity zeroed and the airborne flag cleared. -/
def physicsStep (g : GameRef) : GameRef :=
  if g.isJumping then
    let v := g.velocityY - GRAVITY
    let y := g.playerY + v
    if y ≤ GROUND_Y then
      { g with playerY := GROUND_Y, isJumping := false, velocityY := 0 }
    else
      { g with playerY := y, velocityY := v }
  else g

/-- Elapsed seconds since the run started (Game.tsx line 301). -/
def elapsedSecondsOf (env : Env) (g : GameRef) : ℚ :=
  (env.now - g.startTime) / 1000

/-- The speed level derived from elapsed seconds (Game.tsx line 302). -/
def speedLevelOf (elapsedSeconds : ℚ) : ℤ :=
  ⌊elapsedSeconds / 10⌋

/-- The fire-at-most-once guard pattern shared by the speed-up cue
(Game.tsx lines 305-308) and the milestone cue (lines 402-406): the cue
fires only when the current index exceeds the last-seen index, and firing
stores the current index. -/
def cueStep (current last : ℤ) : Bool × ℤ :=
  if current > last then (true, current) else (false, last)

/-- The difficulty-scaling block (Game.tsx lines 300-314), applied to the
post-physics state: updates `lastSpeedLevel` through the cue guard and
recomputes `speed` and `spawnInterval` from the speed level. -/
def difficultyPhase (env : Env) (g : GameRef) : GameRef :=
  let speedLevel := speedLevelOf (elapsedSecondsOf env g)
  { g with
      lastSpeedLevel := (cueStep speedLevel g.lastSpeedLevel).2
      speed := BASE_SPEED + (speedLevel : ℚ) * SPEED_INCREMENT
      spawnInterval := max SPAWN_INTERVAL_MIN (SPAWN_INTERVAL_BASE - (speedLevel : ℚ) * 100) }

/-- `spawnObstacle` (Game.tsx lines 235-264): a uniformly random archetype
(short, tall, flying) is pushed at the right edge plus a 50px margin. -/
def spawnObstacle (env : Env) (g : GameRef) : GameRef :=
  let t := ⌊env.obstacleTypeRand * 3⌋
  let height : ℚ := if t = 0 then 40 else if t = 1 then 70 else 30
  let y : ℚ := if t = 0 then GROUND_Y else if t = 1 then GROUND_Y
    else GROUND_Y + 60 + env.flyingYRand * 30
  let width : ℚ := if t = 0 then 25 else if t = 1 then 20 else 35
  { g with
      obstacles := g.obstacles ++
        [{ id := g.obstacleId, x := env.canvasWidth + 50, width := width,
           height := height, y := y }]
      obstacleId := g.obstacleId + 1 }

/-- The obstacle-spawn scheduling block (Game.tsx lines 316-321):
`frameCount` is incremented, and an obstacle spawns when the frames since
the last spawn exceed `spawnInterval / 16`. -/
def spawnPhase (env : Env) (g : GameRef) : GameRef :=
  let g1 := { g with frameCount := g.frameCount + 1 }
  if ((g1.frameCount - g1.lastSpawn : ℤ) : ℚ) > g1.spawnInterval / 16 then
    { spawnObstacle env g1 with lastSpawn := g1.frameCount }
  else g1

/-- The power-up spawn block (Game.tsx lines 323-332): gated by a 500-frame
cooldown and a 2% per-frame probability. -/
def powerUpSpawnPhase (env : Env) (g : GameRef) : GameRef :=
  if g.frameCount - g.lastPowerUpSpawn > 500 ∧ env.powerUpRand < 0.02 then
    { g with
        powerUps := g.powerUps ++
          [{ id := g.powerUpId, x := env.canvasWidth + 50,
             y := GROUND_Y + 80 + env.powerUpYRand * 60, size := POWERUP_SIZE }]
        powerUpId := g.powerUpId + 1
        lastPowerUpSpawn := g.frameCount }
  else g

/-- Scrolls one obstacle left by the current speed (Game.tsx line 336). -/
def moveObstacle (speed : ℚ) (obs : Obstacle) : Obstacle :=
  { obs with x := obs.x - speed }

/-- The obstacle update block (Game.tsx lines 334-338): every obstacle
scrolls left and obstacles past x = -100 are dropped. -/
def obstaclesPhase (g : GameRef) : GameRef :=
  { g with
      obstacles := (g.obstacles.map (moveObstacle g.speed)).filter
        fun obs => decide (obs.x > -100) }

/-- Scrolls one power-up left by the current speed (Game.tsx line 342). -/
def movePowerUp (speed : ℚ) (pu : PowerUp) : PowerUp :=
  { pu with x := pu.x - speed }

/-- The power-up pickup test (Game.tsx lines 344-352): collected when the
center-to-center distance is below `pu.size + 20`.  The source compares
`Math.sqrt(d2) < pu.size + 20`; this is encoded without square roots as
`0 < pu.size + 20 ∧ d2 < (pu.size + 20)^2`, which is equivalent because
the distance is the nonnegative square root of `d2`. -/
def collectsPowerUp (playerY : ℚ) (pu : PowerUp) : Bool :=
  let playerCenterX := PLAYER_X + PLAYER_WIDTH / 2
  let playerCenterY := playerY + PLAYER_HEIGHT / 2
  let d2 := (pu.x - playerCenterX) ^ 2 + (pu.y - playerCenterY) ^ 2
  decide (0 < pu.size + 20 ∧ d2 < (pu.size + 20) ^ 2)

/-- The 12-particle collection sparkle (Game.tsx lines 356-368), an even
radial spray at the collected power-up position. -/
def collectParticles (env : Env) (pu : PowerUp) : List Particle :=
  (List.range 12).map fun (i : ℕ) =>
    let angle := (env.pi * 2 * (i : ℚ)) / 12
    { x := pu.x
      y := pu.y
      vx := env.cosf angle * 4
      vy := env.sinf angle * 4
      life := 1
      maxLife := 1
      size := 4
      color := "hsl(60, 100%, 60%)" }

/-- The body of the power-up filter loop (Game.tsx lines 341-373), processed
in list order.  Returns the kept power-ups, whether any was collected (the
source sets `hasDoubleJump = true` inside the loop), the collection
particles pushed, and the number of `playPowerUpSound` calls. -/
def powerUpLoop (env : Env) (playerY speed : ℚ) :
    List PowerUp → List PowerUp × Bool × List Particle × ℕ
  | [] => ([], false, [], 0)
  | pu :: rest =>
    let pu1 := movePowerUp speed pu
    let r := powerUpLoop env playerY speed rest
    if collectsPowerUp playerY pu1 then
      (r.1, true, collectParticles env pu1 ++ r.2.2.1, r.2.2.2 + 1)
    else if pu1.x > -50 then
      (pu1 :: r.1, r.2.1, r.2.2.1, r.2.2.2)
    else
      (r.1, r.2.1, r.2.2.1, r.2.2.2)

/-- The power-up update block as a state transformer: filters the power-ups,
sets `hasDoubleJump` on collection, and appends the sparkle particles.
Second component counts the power-up sound cues fired. -/
def powerUpPhase (env : Env) (g : GameRef) : GameRef × ℕ :=
  let r := powerUpLoop env g.playerY g.speed g.powerUps
  ({ g with
       powerUps := r.1
       hasDoubleJump := g.hasDoubleJump || r.2.1
       particles := g.particles ++ r.2.2.1 },
   r.2.2.2)

/-- `checkCollision` (Game.tsx lines 266-283): axis-aligned bounding-box
overlap between the player box and one obstacle box, strict on all four
comparisons. -/
def checkCollision (playerY : ℚ) (obstacle : Obstacle) : Bool :=
  let playerLeft := PLAYER_X
  let playerRight := PLAYER_X + PLAYER_WIDTH
  let playerTop := playerY + PLAYER_HEIGHT
  let playerBottom := playerY
  let obsLeft := obstacle.x
  let obsRight := obstacle.x + obstacle.width
  let obsTop := obstacle.y + obstacle.height
  let obsBottom := obstacle.y
  decide (playerRight > obsLeft) && decide (playerLeft < obsRight) &&
    decide (playerTop > obsBottom) && decide (playerBottom < obsTop)

/-- The collision scan of `update` (Game.tsx lines 375-387): whether any
live obstacle overlaps the player this frame. -/
def collided (g : GameRef) : Bool :=
  g.obstacles.any (checkCollision g.playerY)

/-- One frame of decay for one particle (Game.tsx lines 391-394): position
integrates the current velocity, then the vertical velocity receives the
0.15 gravity decrement and `life` drops by 0.02. -/
def stepParticle (p : Particle) : Particle :=
  { p with
      x := p.x + p.vx
      y := p.y + p.vy
      vy := p.vy - 0.15
      life := p.life - 0.02 }

/-- The particle update block (Game.tsx lines 389-396): every particle
decays one step and particles whose life dropped to 0 or below are removed
in the same pass. -/
def particlesPhase (ps : List Particle) : List Particle :=
  (ps.map stepParticle).filter fun p => decide (p.life > 0)

/-- The per-run state just before the collision scan: physics, difficulty
scaling, obstacle and power-up spawning, obstacle scrolling and power-up
collection, in the source order of `update` (Game.tsx lines 285-373). -/
def preCollision (env : Env) (g : GameRef) : GameRef :=
  (powerUpPhase env
    (obstaclesPhase
      (powerUpSpawnPhase env
        (spawnPhase env
          (difficultyPhase env
            (physicsStep g)))))).1

/-- Number of power-up collection cues fired this frame. -/
def powerCues (env : Env) (g : GameRef) : ℕ :=
  (powerUpPhase env
    (obstaclesPhase
      (powerUpSpawnPhase env
        (spawnPhase env
          (difficultyPhase env
            (physicsStep g)))))).2

/-- Everything one call of `update` (Game.tsx lines 285-409) produces:
the new run state, whether `setGameState("dead")` fired, the React `score`
state after the frame (unchanged on a death frame, where `update` returns
before `setScore`), the React high-score state, the value written to the
best-score store (`localStorage`) if any, and which sound cues fired. -/
structure UpdateResult where
  game : GameRef
  dead : Bool
  score : ℤ
  highScore : ℤ
  savedBest : Option ℤ
  cueCrash : Bool
  cueSpeedUp : Bool
  cueMilestone : Bool
  cuePowerUpCount : ℕ
deriving DecidableEq, Repr

/-- The full `update` function (Game.tsx lines 285-409), one frame while
`playing`.  `score` and `highScore` are the React state values captured by
the effect closure.  On the first colliding obstacle the source emits the
death burst, transitions to `dead`, persists a strictly larger score, and
returns — skipping the particle decay and the score update for that frame.
The speed-up guard reads `lastSpeedLevel` before `difficultyPhase` stores
the new level; `physicsStep` touches neither `lastSpeedLevel` nor
`startTime`, so the guard is computed here from `g` directly. -/
def update (env : Env) (g : GameRef) (score highScore : ℤ) : UpdateResult :=
  let cueSpeed := (cueStep (speedLevelOf (elapsedSecondsOf env g)) g.lastSpeedLevel).1
  let gPre := preCollision env g
  if collided gPre then
    { game := { gPre with particles := gPre.particles ++ deathParticles env gPre.playerY }
      dead := true
      score := score
      highScore := if score > highScore then score else highScore
      savedBest := if score > highScore then some score else none
      cueCrash := true
      cueSpeedUp := cueSpeed
      cueMilestone := false
      cuePowerUpCount := powerCues env g }
  else
    let g7 := { gPre with particles := particlesPhase gPre.particles }
    let newScore := ⌊elapsedSecondsOf env g * 10⌋
    let m := cueStep ⌊(newScore : ℚ) / 100⌋ g7.lastMilestone
    { game := { g7 with lastMilestone := m.2 }
      dead := false
      score := newScore
      highScore := highScore
      savedBest := none
      cueCrash := false
      cueSpeedUp := cueSpeed
      cueMilestone := m.1
      cuePowerUpCount := powerCues env g }

/-- Number of frames, among a run of frames whose speed levels (or milestone
indices) are `lvls`, on which the cue guard `cueStep` fires with current
index exactly `L`, starting from last-seen index `last`.  This folds the
guard of Game.tsx lines 305-308 / 402-406 over successive frames. -/
def cueFireCount (L : ℤ) : ℤ → List ℤ → ℕ
  | _, [] => 0
  | last, l :: rest =>
    (if (cueStep l last).1 = true ∧ l = L then 1 else 0) +
      cueFireCount L (cueStep l last).2 rest

/-- Whether any power-up, after this frame's scroll, is collected by the
player (the condition under which the loop of Game.tsx lines 341-373 sets
`hasDoubleJump = true`). -/
def anyCollected (g : GameRef) : Bool :=
  g.powerUps.any fun pu => collectsPowerUp g.playerY (movePowerUp g.speed pu)

/-! Concrete fixtures used to instantiate the theorems below. -/

/-- A concrete environment: clock at 0, canvas 800 wide, every random draw 0
except the power-up gate draw (1, so no power-up spawns), and zero stubs for
the trigonometric oracles. -/
def env0 : Env :=
  { now := 0, canvasWidth := 800, pi := 0,
    cosf := fun _ => 0, sinf := fun _ => 0,
    obstacleTypeRand := 0, flyingYRand := 0, powerUpRand := 1, powerUpYRand := 0,
    deathAngleRand := fun _ => 0, deathSpeedRand := fun _ => 0,
    deathSecondaryRand := fun _ => 0, deathSizeRand := fun _ => 0,
    dustXRand := fun _ => 0, dustVxRand := fun _ => 0, dustVyRand := fun _ => 0,
    dustSizeRand := fun _ => 0,
    djXRand := fun _ => 0, djVxRand := fun _ => 0, djVyRand := fun _ => 0,
    djSizeRand := fun _ => 0 }

/-- A fresh run with one obstacle at x = 85 that scrolls to x = 80 on the
first frame and overlaps the grounded player. -/
def gCollide : GameRef :=
  { resetGame 0 with obstacles := [{ id := 0, x := 85, width := 25, height := 40, y := 120 }] }

/-- An airborne player holding an unconsumed double-jump charge. -/
def gAir : GameRef :=
  { resetGame 0 with
      isJumping := true
      playerY := 150
      velocityY := 5
      hasDoubleJump := true }

/-- An airborne player with no double-jump charge available. -/
def gAirSpent : GameRef :=
  { resetGame 0 with
      isJumping := true
      playerY := 150
      velocityY := 5
      usedDoubleJump := true }

/-- A freshly emitted particle with `life = 1`. -/
def pFresh : Particle :=
  { x := 0, y := 0, vx := 1, vy := 1, life := 1, maxLife := 1, size := 4,
    color := "hsl(180, 100%, 60%)" }

/-- A particle whose next decay step drives its life to 0 or below. -/
def pFaint : Particle :=
  { pFresh with life := 0.01 }

/-- An obstacle whose left edge exactly touches the player's right edge. -/
def obsTouch : Obstacle :=
  { id := 0, x := 120, width := 25, height := 40, y := 0 }

/-! Shared helper lemmas. -/

/-- The death transition of `update` fires exactly when the post-phase state
has a colliding obstacle. -/
theorem update_dead_eq (env : Env) (g : GameRef) (sc hs : ℤ) :
    (update env g sc hs).dead = collided (preCollision env g) := by
  by_cases hc : collided (preCollision env g) = true
  · simp [update, hc]
  · simp only [Bool.not_eq_true] at hc
    simp [update, hc]

/-- On a frame with no collision, the score published by `update` is the
floor of ten times the elapsed seconds. -/
theorem update_score_eq (env : Env) (g : GameRef) (sc hs : ℤ)
    (hc : collided (preCollision env g) = false) :
    (update env g sc hs).score = ⌊elapsedSecondsOf env g * 10⌋ := by
  simp [update, hc]

/-- Life after `n` decay steps drops linearly by `0.02` per step. -/
theorem stepParticle_iterate_life (p : Particle) (n : ℕ) :
    (stepParticle^[n] p).life = p.life - (n : ℚ) * 0.02 := by
  induction n generalizing p with
  | zero => simp
  | succ k ih =>
    rw [Function.iterate_succ_apply, ih]
    simp only [stepParticle]
    push_cast
    ring

/-- Once the last-seen index is at least `L`, the guard never fires with
current index `L` again. -/
theorem cueFireCount_eq_zero (L last : ℤ) (lvls : List ℤ) (h : L ≤ last) :
    cueFireCount L last lvls = 0 := by
  induction lvls generalizing last with
  | nil => rfl
  | cons l rest ih =>
    by_cases hl : l > last
    · have h2 : (cueStep l last).2 = l := by simp [cueStep, hl]
      have h1 : (cueStep l last).1 = true := by simp [cueStep, hl]
      simp only [cueFireCount, h1, h2]
      rw [ih l (le_trans h (le_of_lt hl))]
      have : ¬ (True ∧ l = L) := by
        rintro ⟨-, rfl⟩
        exact absurd hl (not_lt.mpr h)
      simp only [true_and]
      rw [if_neg (fun hlL => this ⟨trivial, hlL⟩)]
    · have h2 : (cueStep l last).2 = last := by simp [cueStep, hl]
      have h1 : (cueStep l last).1 = false := by simp [cueStep, hl]
      simp only [cueFireCount, h1, h2]
      rw [ih last h]
      simp

/-- Over any run of frames, a given threshold index fires the cue at most
once. -/
theorem cueFireCount_le_one (L last : ℤ) (lvls : List ℤ) :
    cueFireCount L last lvls ≤ 1 := by
  induction lvls generalizing last with
  | nil => simp [cueFireCount]
  | cons l rest ih =>
    by_cases hl : l > last
    · have h1 : (cueStep l last).1 = true := by simp [cueStep, hl]
      have h2 : (cueStep l last).2 = l := by simp [cueStep, hl]
      by_cases hL : l = L
      · have hz : cueFireCount L l rest = 0 :=
          cueFireCount_eq_zero L l rest (le_of_eq hL.symm)
        simp only [cueFireCount, h1, h2, true_and]
        rw [if_pos hL, hz]
      · simp only [cueFireCount, h1, h2, true_and]
        rw [if_neg hL]
        simpa using ih l
    · have h1 : (cueStep l last).1 = false := by simp [cueStep, hl]
      have h2 : (cueStep l last).2 = last := by simp [cueStep, hl]
      simp only [cueFireCount, h1, h2]
      simpa using ih last

/-- The collected-flag component of the power-up loop is the any-collected
predicate over the scrolled power-ups. -/
theorem powerUpLoop_collected (env : Env) (playerY speed : ℚ) (pus : List PowerUp) :
    (powerUpLoop env playerY speed pus).2.1 =
      pus.any fun pu => collectsPowerUp playerY (movePowerUp speed pu) := by
  induction pus with
  | nil => rfl
  | cons pu rest ih =>
    by_cases hcol : collectsPowerUp playerY (movePowerUp speed pu) = true
    · simp [powerUpLoop, hcol]
    · simp only [Bool.not_eq_true] at hcol
      by_cases hkeep : (movePowerUp speed pu).x > -50
      · simp [powerUpLoop, hcol, hkeep, ih]
      · simp [powerUpLoop, hcol, hkeep, ih]

/-! Claim theorems. -/

/-- C3: while playing, a `jump()` with the player grounded sets the vertical
velocity to the full impulse, marks the player airborne, and clears the
extra-jump-consumed flag; a `jump()` while airborne with an unconsumed
charge sets the velocity to 0.85 times the primary impulse and marks the
charge both consumed and cleared; any further `jump()` while airborne with
no available charge leaves the entire run state unchanged. -/
theorem jump_state_cases (env : Env) (g : GameRef) :
    (g.isJumping = false →
      (jump env .playing g).2.velocityY = JUMP_FORCE ∧
      (jump env .playing g).2.isJumping = true ∧
      (jump env .playing g).2.usedDoubleJump = false) ∧
    (g.isJumping = true → g.hasDoubleJump = true → g.usedDoubleJump = false →
      (jump env .playing g).2.velocityY = JUMP_FORCE * 0.85 ∧
      (jump env .playing g).2.usedDoubleJump = true ∧
      (jump env .playing g).2.hasDoubleJump = false) ∧
    (g.isJumping = true → (g.hasDoubleJump = true → g.usedDoubleJump = true) →
      jump env .playing g = (.playing, g)) := by
  refine ⟨fun hj => ?_, fun hj hd hu => ?_, fun hj hno => ?_⟩
  · simp [jump, hj]
  · simp [jump, hj, hd, hu]
  · by_cases hd : g.hasDoubleJump = true
    · simp [jump, hj, hd, hno hd]
    · simp only [Bool.not_eq_true] at hd
      simp [jump, hj, hd]

/-- Witness for C3 at concrete states: a grounded jump marks the player
airborne, and a charge-less airborne jump is a no-op. -/
theorem jump_state_cases_witness :
    (jump env0 .playing (resetGame 0)).2.isJumping = true ∧
    jump env0 .playing gAirSpent = (.playing, gAirSpent) := by
  constructor
  · exact ((jump_state_cases env0 (resetGame 0)).1 rfl).2.1
  · exact (jump_state_cases env0 gAirSpent).2.2 rfl (fun _ => rfl)

/-- C5: while airborne, the physics step subtracts the gravity constant from
the velocity first and advances the position by the updated velocity; a
position at or below the ground baseline is clamped to the baseline with
velocity zeroed and the airborne flag cleared, so a position at or above the
baseline never drops below it. -/
theorem physics_step_gravity_clamp (g : GameRef) :
    (g.isJumping = true → g.playerY + (g.velocityY - GRAVITY) ≤ GROUND_Y →
      physicsStep g =
        { g with playerY := GROUND_Y, isJumping := false, velocityY := 0 }) ∧
    (g.isJumping = true → GROUND_Y < g.playerY + (g.velocityY - GRAVITY) →
      physicsStep g =
        { g with playerY := g.playerY + (g.velocityY - GRAVITY),
                 velocityY := g.velocityY - GRAVITY }) ∧
    (GROUND_Y ≤ g.playerY → GROUND_Y ≤ (physicsStep g).playerY) := by
  refine ⟨fun hj hle => ?_, fun hj hgt => ?_, fun hy => ?_⟩
  · simp [physicsStep, hj, hle]
  · simp [physicsStep, hj, not_le.mpr hgt]
  · by_cases hj : g.isJumping = true
    · by_cases hle : g.playerY + (g.velocityY - GRAVITY) ≤ GROUND_Y
      · simp [physicsStep, hj, hle]
      · simp only [physicsStep, hj, if_true, if_neg hle]
        exact le_of_lt (not_le.mp hle)
    · simp only [Bool.not_eq_true] at hj
      simpa [physicsStep, hj] using hy

/-- Witness for C5 at a concrete airborne state: gravity and position are
applied in order, and the position stays at or above the baseline. -/
theorem physics_step_gravity_clamp_witness :
    physicsStep gAir =
      { gAir with playerY := gAir.playerY + (gAir.velocityY - GRAVITY),
                  velocityY := gAir.velocityY - GRAVITY } ∧
    GROUND_Y ≤ (physicsStep gAir).playerY := by
  constructor
  · exact (physics_step_gravity_clamp gAir).2.1 rfl
      (by norm_num [gAir, resetGame, GROUND_Y, GRAVITY])
  · exact (physics_step_gravity_clamp gAir).2.2
      (by norm_num [gAir, resetGame, GROUND_Y])

/-- C8: each frame a live particle advances its position by its velocity,
its vertical velocity receives the 0.15 downward decrement and its life
drops by the fixed step 0.02; a particle created with life 1 still lives
after 49 steps, reaches life at most 0 at step 50, and a particle whose
stepped life is at or below 0 is absent from the updated particle list. -/
theorem particle_decay_and_removal (p : Particle) (ps : List Particle) :
    ((stepParticle p).life = p.life - 0.02 ∧
     (stepParticle p).x = p.x + p.vx ∧
     (stepParticle p).y = p.y + p.vy ∧
     (stepParticle p).vy = p.vy - 0.15) ∧
    (p.life = 1 → 0 < (stepParticle^[49] p).life ∧ (stepParticle^[50] p).life ≤ 0) ∧
    (∀ q ∈ ps, (stepParticle q).life ≤ 0 → stepParticle q ∉ particlesPhase ps) := by
  refine ⟨⟨rfl, rfl, rfl, rfl⟩, fun h1 => ?_, fun q _ hlife hmem => ?_⟩
  · rw [stepParticle_iterate_life, stepParticle_iterate_life, h1]
    norm_num
  · simp only [particlesPhase, List.mem_filter, decide_eq_true_eq] at hmem
    exact absurd hmem.2 (not_lt.mpr hlife)

/-- Witness for C8 at concrete particles: the fresh particle survives step
49, dies by step 50, and the faint particle is removed by the phase. -/
theorem particle_decay_and_removal_witness :
    (0 < (stepParticle^[49] pFresh).life ∧ (stepParticle^[50] pFresh).life ≤ 0) ∧
    stepParticle pFaint ∉ particlesPhase [pFaint] := by
  constructor
  · exact (particle_decay_and_removal pFresh []).2.1 rfl
  · exact (particle_decay_and_removal pFaint [pFaint]).2.2 pFaint
      (List.mem_singleton_self pFaint)
      (by norm_num [stepParticle, pFaint, pFresh])

/-- C9: the collision predicate is strict on all four axis comparisons, so
boxes that merely touch at an edge (player right edge on the obstacle left
edge, player left edge on the obstacle right edge, player bottom on the
obstacle top, or player top on the obstacle bottom) are not a collision. -/
theorem touching_boxes_no_collision (py : ℚ) (obs : Obstacle)
    (h : obs.x = PLAYER_X + PLAYER_WIDTH ∨ PLAYER_X = obs.x + obs.width ∨
         py = obs.y + obs.height ∨ py + PLAYER_HEIGHT = obs.y) :
    checkCollision py obs = false := by
  rcases h with h | h | h | h <;>
    simp [checkCollision, h, lt_irrefl, le_refl]

/-- Witness for C9: an obstacle whose left edge sits exactly on the player's
right edge while overlapping vertically does not collide. -/
theorem touching_boxes_no_collision_witness :
    checkCollision 120 obsTouch = false :=
  touching_boxes_no_collision 120 obsTouch
    (Or.inl (by norm_num [obsTouch, PLAYER_X, PLAYER_WIDTH]))

/-- C10: the double-jump charge is one boolean that never stacks (after the
power-up phase it holds exactly when it was already held or some power-up
was collected this frame), the physics step — including the landing clamp —
never touches the charge or the consumed flag, and a ground jump preserves
the charge, so an unconsumed charge persists across flights until consumed. -/
theorem double_jump_charge_single_persistent (env : Env) (g : GameRef) :
    (powerUpPhase env g).1.hasDoubleJump = (g.hasDoubleJump || anyCollected g) ∧
    (physicsStep g).hasDoubleJump = g.hasDoubleJump ∧
    (physicsStep g).usedDoubleJump = g.usedDoubleJump ∧
    (g.isJumping = false →
      (jump env .playing g).2.hasDoubleJump = g.hasDoubleJump) := by
  refine ⟨?_, ?_, ?_, fun hj => ?_⟩
  · simp [powerUpPhase, powerUpLoop_collected, anyCollected]
  · by_cases hj : g.isJumping = true
    · by_cases hle : g.playerY + (g.velocityY - GRAVITY) ≤ GROUND_Y <;>
        simp [physicsStep, hj, hle]
    · simp only [Bool.not_eq_true] at hj
      simp [physicsStep, hj]
  · by_cases hj : g.isJumping = true
    · by_cases hle : g.playerY + (g.velocityY - GRAVITY) ≤ GROUND_Y <;>
        simp [physicsStep, hj, hle]
    · simp only [Bool.not_eq_true] at hj
      simp [physicsStep, hj]
  · simp [jump, hj]

/-- Witness for C10 at concrete states: collecting nothing while charged
keeps exactly one charge through the physics step, and a grounded jump
leaves the (absent) charge absent. -/
theorem double_jump_charge_single_persistent_witness :
    (physicsStep gAir).hasDoubleJump = gAir.hasDoubleJump ∧
    (jump env0 .playing (resetGame 0)).2.hasDoubleJump = (resetGame 0).hasDoubleJump := by
  exact ⟨(double_jump_charge_single_persistent env0 gAir).2.1,
    (double_jump_charge_single_persistent env0 (resetGame 0)).2.2.2 rfl⟩

/-- C1: on every frame that stays alive, the published score is recomputed
as the floor of ten times the seconds elapsed since the run's start
timestamp, independently of the previously accumulated score, and any frame
computed from the same frozen clock value and the same start timestamp
yields the identical score. -/
theorem score_derived_from_clock (env : Env) (g : GameRef) (sc hs : ℤ)
    (h : (update env g sc hs).dead = false) :
    (update env g sc hs).score = ⌊elapsedSecondsOf env g * 10⌋ ∧
    ∀ env2 g2 sc2 hs2, env2.now = env.now → g2.startTime = g.startTime →
      (update env2 g2 sc2 hs2).dead = false →
      (update env2 g2 sc2 hs2).score = (update env g sc hs).score := by
  have hc : collided (preCollision env g) = false := by
    rwa [update_dead_eq] at h
  refine ⟨update_score_eq env g sc hs hc, fun env2 g2 sc2 hs2 hn hst h2 => ?_⟩
  have hc2 : collided (preCollision env2 g2) = false := by
    rwa [update_dead_eq] at h2
  rw [update_score_eq env2 g2 sc2 hs2 hc2, update_score_eq env g sc hs hc]
  unfold elapsedSecondsOf
  rw [hn, hst]

/-- Witness for C1: the first frame of a fresh run survives and its score
is the floor formula of its elapsed time. -/
theorem score_derived_from_clock_witness :
    (update env0 (resetGame 0) 0 0).score = ⌊elapsedSecondsOf env0 (resetGame 0) * 10⌋ :=
  (score_derived_from_clock env0 (resetGame 0) 0 0 (by
    rw [update_dead_eq]
    norm_num [collided, preCollision, physicsStep, difficultyPhase, spawnPhase,
      spawnObstacle, powerUpSpawnPhase, obstaclesPhase, powerUpPhase, powerUpLoop,
      elapsedSecondsOf, speedLevelOf, cueStep, resetGame, env0, checkCollision,
      GROUND_Y, BASE_SPEED, SPEED_INCREMENT, SPAWN_INTERVAL_BASE,
      SPAWN_INTERVAL_MIN, GRAVITY])).1

/-- C2 counterexample: the source never clamps the elapsed time, so with a
clock one second before the recorded run start the very first frame
publishes the negative score -10 and a negative speed level. -/
theorem unclamped_clock_counterexample :
    (update env0 (resetGame 1000) 0 0).score = -10 ∧
    speedLevelOf (elapsedSecondsOf env0 (resetGame 1000)) = -1 := by
  constructor
  · norm_num [update, preCollision, powerCues, physicsStep, difficultyPhase,
      spawnPhase, spawnObstacle, powerUpSpawnPhase, obstaclesPhase, powerUpPhase,
      powerUpLoop, collided, particlesPhase, elapsedSecondsOf, speedLevelOf,
      cueStep, resetGame, env0, GROUND_Y, BASE_SPEED, SPEED_INCREMENT,
      SPAWN_INTERVAL_BASE, SPAWN_INTERVAL_MIN, GRAVITY]
  · norm_num [speedLevelOf, elapsedSecondsOf, env0, resetGame]

/-- C2 amended: the per-frame update performs no clamping of the elapsed
time; whenever the clock is at or past the recorded run start the computed
speed level is non-negative and every surviving frame publishes a
non-negative score, but a clock earlier than the run start produces
negative values. -/
theorem score_speed_level_nonneg_without_clamp (env : Env) (g : GameRef)
    (sc hs : ℤ) (h0 : g.startTime ≤ env.now) :
    0 ≤ speedLevelOf (elapsedSecondsOf env g) ∧
    ((update env g sc hs).dead = false → 0 ≤ (update env g sc hs).score) := by
  have he : 0 ≤ elapsedSecondsOf env g := by
    unfold elapsedSecondsOf
    exact div_nonneg (sub_nonneg.mpr h0) (by norm_num)
  constructor
  · unfold speedLevelOf
    exact Int.floor_nonneg.mpr (div_nonneg he (by norm_num))
  · intro hdead
    have hc : collided (preCollision env g) = false := by
      rwa [update_dead_eq] at hdead
    rw [update_score_eq env g sc hs hc]
    exact Int.floor_nonneg.mpr (mul_nonneg he (by norm_num))

/-- Witness for C2 amended: a run whose clock starts exactly at the run
start has a non-negative speed level. -/
theorem score_speed_level_nonneg_without_clamp_witness :
    0 ≤ speedLevelOf (elapsedSecondsOf env0 (resetGame 0)) :=
  (score_speed_level_nonneg_without_clamp env0 (resetGame 0) 0 0
    (by norm_num [resetGame, env0])).1

/-- C4: on a frame where some live obstacle overlaps the player box, the
state transitions to dead on that exact frame with the crash cue, exactly
the 30-particle death burst is appended, and the update exits early: the
particle decay pass and the score update are skipped (the published score
stays the captured value). -/
theorem collision_frame_death (env : Env) (g : GameRef) (sc hs : ℤ)
    (h : collided (preCollision env g) = true) :
    (update env g sc hs).dead = true ∧
    (update env g sc hs).cueCrash = true ∧
    (update env g sc hs).game.particles =
      (preCollision env g).particles ++
        deathParticles env (preCollision env g).playerY ∧
    (deathParticles env (preCollision env g).playerY).length = 30 ∧
    (update env g sc hs).score = sc := by
  refine ⟨?_, ?_, ?_, ?_, ?_⟩ <;> simp [update, h, deathParticles]

/-- Witness for C4: a frame whose single obstacle scrolls onto the player
dies on that frame and keeps the captured score. -/
theorem collision_frame_death_witness :
    (update env0 gCollide 7 3).dead = true ∧ (update env0 gCollide 7 3).score = 7 := by
  have h : collided (preCollision env0 gCollide) = true := by
    norm_num [collided, preCollision, physicsStep, difficultyPhase, spawnPhase,
      spawnObstacle, powerUpSpawnPhase, obstaclesPhase, powerUpPhase, powerUpLoop,
      elapsedSecondsOf, speedLevelOf, cueStep, resetGame, gCollide, env0,
      checkCollision, moveObstacle, GROUND_Y, BASE_SPEED, SPEED_INCREMENT,
      SPAWN_INTERVAL_BASE, SPAWN_INTERVAL_MIN, GRAVITY, PLAYER_X, PLAYER_WIDTH,
      PLAYER_HEIGHT]
  exact ⟨(collision_frame_death env0 gCollide 7 3 h).1,
    (collision_frame_death env0 gCollide 7 3 h).2.2.2.2⟩

/-- C6: the milestone and speed-up guards fire exactly when the current
index exceeds the stored last-seen index, firing stores the current index
(the running maximum), an immediate re-check of the same index never fires
again, over any run of frames a given threshold index fires at most once,
and `update` wires the speed-up cue to the speed-level guard and the
milestone cue to the hundred-point guard (suppressed on death frames). -/
theorem threshold_cues_fire_once (L last current : ℤ) (lvls : List ℤ) :
    ((cueStep current last).1 = true ↔ last < current) ∧
    (cueStep current last).2 = max current last ∧
    (cueStep current (cueStep current last).2).1 = false ∧
    cueFireCount L last lvls ≤ 1 ∧
    ∀ env g sc hs,
      (update env g sc hs).cueSpeedUp =
        (cueStep (speedLevelOf (elapsedSecondsOf env g)) g.lastSpeedLevel).1 ∧
      (update env g sc hs).cueMilestone =
        (if collided (preCollision env g) = true then false
         else (cueStep ⌊((⌊elapsedSecondsOf env g * 10⌋ : ℤ) : ℚ) / 100⌋
                 (preCollision env g).lastMilestone).1) := by
  have hmax : (cueStep current last).2 = max current last := by
    by_cases hc : current > last
    · simp [cueStep, hc, max_eq_left (le_of_lt hc)]
    · simp [cueStep, hc, max_eq_right (not_lt.mp hc)]
  refine ⟨?_, hmax, ?_, cueFireCount_le_one L last lvls, ?_⟩
  · by_cases hc : current > last <;> simp [cueStep, hc]
  · rw [hmax]
    simp [cueStep, not_lt.mpr (le_max_left current last)]
  · intro env g sc hs
    by_cases hcol : collided (preCollision env g) = true
    · constructor <;> simp [update, hcol]
    · simp only [Bool.not_eq_true] at hcol
      constructor <;> simp [update, hcol]

/-- C7: the best-score store is written on the death transition exactly when
the captured run score strictly exceeds the stored best — in which case the
stored value becomes that score — and on every surviving frame (and on
death frames without a strictly larger score) nothing is written and the
stored best is unchanged. -/
theorem best_score_written_iff_exceeds (env : Env) (g : GameRef) (sc hs : ℤ) :
    (update env g sc hs).savedBest =
      (if collided (preCollision env g) = true ∧ hs < sc then some sc else none) ∧
    (update env g sc hs).highScore =
      (if collided (preCollision env g) = true ∧ hs < sc then sc else hs) := by
  by_cases hcol : collided (preCollision env g) = true
  · by_cases hsc : hs < sc
    · constructor <;> simp [update, hcol, hsc]
    · constructor <;> simp [update, hcol, hsc]
  · simp only [Bool.not_eq_true] at hcol
    constructor <;> simp [update, hcol]

end AutoJumpBlast
